import Mathlib

/-
Verification of the COVID-19 dashboard (src/app.py) against its
natural-language specification.

The embedding is a shallow one:

* Calendar dates (the parsed `date` column) are triples year/month/day with
  the lexicographic order; `strftime("%b %d, %Y")` is modelled faithfully
  (month abbreviation, zero-padded day, full year).
* A pandas DataFrame is a list of rows.  Each row carries its pandas index
  label (`idx`): `pd.read_csv` labels rows 0,1,2,... and the `notna` filter
  keeps the labels of the surviving rows, which matters because the callback
  tests the label for Python truthiness (`if last_increase_idx:`).
* The metric column may hold missing values (NaN), modelled as `Option Int`;
  `diff()` of a NaN neighbour is NaN, and `NaN > 0` is false, as in pandas.
* The filesystem and network touched by `download_if_needed` are explicit
  state: the ledger file contents (`Option String`, `none` = file absent),
  the set of existing cache-file paths, and a counter of network requests.
  `requests.get`/`raise_for_status` failure is the `Except.error` branch.
* `update_chart` is written in state-passing style: it returns the figure
  (or `none` where the real code raises, namely `strftime` on the `NaT`
  min/max of an empty frame) together with the dataframe after the call.
  `df[df["location"] == country]` copies in pandas, so the per-country
  `delta` column lands on the copy only; the embedding mirrors this by
  keeping the working rows (`zip` with the delta column) local to
  `renderCountry` and threading the shared frame through unchanged.
-/

/-- A calendar date, as produced by `pd.to_datetime` on the `date` column. -/
structure Date where
  year : Nat
  month : Nat
  day : Nat
deriving DecidableEq, Repr

/-- Lexicographic comparison of dates (timestamp order). -/
def dateLe (a b : Date) : Bool :=
  decide (a.year < b.year) ||
    (decide (a.year = b.year) &&
      (decide (a.month < b.month) ||
        (decide (a.month = b.month) && decide (a.day ≤ b.day))))

/-- The smaller of two dates (`Series.min` combining step). -/
def dateMin (a b : Date) : Date := if dateLe a b then a else b

/-- The larger of two dates (`Series.max` combining step). -/
def dateMax (a b : Date) : Date := if dateLe a b then b else a

/-- `df["date"].min()`: `none` is pandas `NaT` (empty column). -/
def seriesMin : List Date → Option Date
  | [] => none
  | d :: ds => some (ds.foldl dateMin d)

/-- `df["date"].max()`: `none` is pandas `NaT` (empty column). -/
def seriesMax : List Date → Option Date
  | [] => none
  | d :: ds => some (ds.foldl dateMax d)

/-- strftime `%b`: abbreviated month name. -/
def monthAbbr : Nat → String
  | 1 => "Jan" | 2 => "Feb" | 3 => "Mar" | 4 => "Apr"
  | 5 => "May" | 6 => "Jun" | 7 => "Jul" | 8 => "Aug"
  | 9 => "Sep" | 10 => "Oct" | 11 => "Nov" | 12 => "Dec"
  | _ => ""

/-- strftime `%d`: zero-padded day of month. -/
def pad2 (n : Nat) : String := if n < 10 then "0" ++ toString n else toString n

/-- `strftime("%b %d, %Y")`, the format used for the chart title. -/
def formatBDY (d : Date) : String :=
  monthAbbr d.month ++ " " ++ pad2 d.day ++ ", " ++ toString d.year

/-- A raw CSV record: parsed date, location, and the configured metric
column (`total_cases`), `none` when the cell is empty/NaN. -/
structure RawRow where
  date : Date
  location : String
  metric : Option Int
deriving DecidableEq, Repr

/-- A dataframe row: `idx` is the pandas index label assigned by
`pd.read_csv` (positional 0,1,2,... over the raw file). -/
structure Row where
  idx : Nat
  date : Date
  location : String
  metric : Option Int
deriving DecidableEq, Repr

/-- `pd.read_csv`: label the raw records 0,1,2,.... -/
def read_csv (raws : List RawRow) : List Row :=
  raws.enum.map fun p => { idx := p.1, date := p.2.date, location := p.2.location, metric := p.2.metric }

/-- `df = pd.read_csv(filepath)` followed by `df = df[df[METRIC].notna()]`:
drop the rows whose metric is missing, keeping the original labels. -/
def loadDF (raws : List RawRow) : List Row :=
  (read_csv raws).filter fun r => r.metric.isSome

/-- Python substring membership helper on character lists:
`prefList n h` is true when `n` is an initial segment of `h`. -/
def prefList : List Char → List Char → Bool
  | [], _ => true
  | _ :: _, [] => false
  | a :: as, b :: bs => a == b && prefList as bs

/-- `subList n h` is true when `n` occurs contiguously inside `h`. -/
def subList : List Char → List Char → Bool
  | n, [] => prefList n []
  | n, h :: t => prefList n (h :: t) || subList n t

/-- Python `needle in hay` on strings: substring containment. -/
def strContains (hay needle : String) : Bool :=
  subList needle.toList hay.toList

/-- The filesystem/network state touched by `download_if_needed`:
the ledger file `download_log.txt` (`none` when absent), the set of
existing cache-file paths, and a count of network GETs performed. -/
structure FetchState where
  ledger : Option String
  cache : List String
  requests : Nat
deriving DecidableEq, Repr

/-- The outcome the transport would deliver for the single GET. -/
structure HttpResponse where
  ok : Bool
  content : String
deriving DecidableEq, Repr

/-- `os.path.join(DATA_FOLDER, f"owid-covid-data_{today}.csv")`. -/
def filepathFor (today : String) : String :=
  "covid_data/owid-covid-data_" ++ today ++ ".csv"

/-- `open(filepath, "wb").write(...)`: the path now exists (re-writing an
existing path leaves the set of existing paths unchanged). -/
def writeFile (p : String) (cache : List String) : List String :=
  if p ∈ cache then cache else p :: cache

/-- The download branch of `download_if_needed`: perform the GET,
`raise_for_status()` on a non-success response, otherwise write the cache
file and append `"{today} - Downloaded\n"` to the ledger (creating it). -/
def fetchAndRecord (today : String) (resp : HttpResponse) (s : FetchState) : Except String FetchState :=
  let s1 : FetchState := { s with requests := s.requests + 1 }
  if resp.ok then
    Except.ok { s1 with
      cache := writeFile (filepathFor today) s1.cache,
      ledger := some ((s1.ledger.getD "") ++ today ++ " - Downloaded\n") }
  else
    Except.error "HTTPError"

/-- `download_if_needed()`: if the ledger file exists and its contents
contain today's date label as a substring, return at once; otherwise
download. -/
def download_if_needed (today : String) (resp : HttpResponse) (s : FetchState) : Except String FetchState :=
  match s.ledger with
  | some txt => if strContains txt today then Except.ok s else fetchAndRecord today resp s
  | none => fetchAndRecord today resp s

/-- Plotly trace mode: `mode="lines"` or `mode="markers"`. -/
inductive Mode where
  | lines
  | markers
deriving DecidableEq, Repr

/-- One plotly scatter trace. -/
structure Trace where
  x : List Date
  y : List (Option Int)
  mode : Mode
  name : Option String
  showlegend : Bool
deriving DecidableEq, Repr

/-- One plotly text callout (`fig.add_annotation`). -/
structure Anno where
  x : Date
  y : Option Int
  text : String
deriving DecidableEq, Repr

/-- The layout fields the callback sets through `update_layout`;
`none` everywhere is the `go.Figure()` default layout. -/
structure Layout where
  title : Option String
  xaxis_title : Option String
  yaxis_title : Option String
  plot_bgcolor : Option String
  paper_bgcolor : Option String
deriving DecidableEq, Repr

/-- The `go.Figure()` default layout: nothing set. -/
def defaultLayout : Layout :=
  { title := none, xaxis_title := none, yaxis_title := none,
    plot_bgcolor := none, paper_bgcolor := none }

/-- A figure: ordered traces, ordered callouts, layout. -/
structure Figure where
  traces : List Trace
  annotations : List Anno
  layout : Layout
deriving DecidableEq, Repr

/-- `go.Figure()`: no traces, no callouts, default layout. -/
def Figure.empty : Figure :=
  { traces := [], annotations := [], layout := defaultLayout }

/-- The chart title built by `update_layout`, with the two dates
formatted by `strftime("%b %d, %Y")`. -/
def titleText (lo hi : Date) : String :=
  "Total COVID-19 Cases (" ++ formatBDY lo ++ " – " ++ formatBDY hi ++ ")"

/-- The layout set by `fig.update_layout(...)` in the callback. -/
def styledLayout (lo hi : Date) : Layout :=
  { title := some (titleText lo hi),
    xaxis_title := some "Date",
    yaxis_title := some "Total Cases",
    plot_bgcolor := some "#0d0d0d",
    paper_bgcolor := some "#0d0d0d" }

/-- Stable insertion into a date-sorted list of rows. -/
def insertRow (a : Row) : List Row → List Row
  | [] => [a]
  | x :: xs => if dateLe a.date x.date then a :: x :: xs else x :: insertRow a xs

/-- `sort_values("date")`: sort rows ascending by date (ties keep their
relative order; no claim depends on the tie order). -/
def sortByDate (l : List Row) : List Row := l.foldr insertRow []

/-- `df[df["location"] == country].sort_values("date")`: the working copy
for one country. -/
def countrySorted (df : List Row) (c : String) : List Row :=
  sortByDate (df.filter fun r => r.location == c)

/-- Helper for `diff()`: each entry minus its predecessor, `prev` being the
value of the preceding row. -/
def diffAux (prev : Option Int) : List (Option Int) → List (Option Int)
  | [] => []
  | m :: rest =>
    (match prev, m with
     | some a, some b => some (b - a)
     | _, _ => none) :: diffAux m rest

/-- `country_df[METRIC].diff()`: first entry NaN, then consecutive
differences; a NaN neighbour makes the difference NaN. -/
def diffList : List (Option Int) → List (Option Int)
  | [] => []
  | m :: rest => none :: diffAux m rest

/-- `delta > 0` in pandas: NaN compares false. -/
def posDelta : Option Int → Bool
  | some v => decide (0 < v)
  | none => false

/-- `country_df[country_df["delta"] > 0].last_valid_index()` followed by the
Python truthiness test `if last_increase_idx:` and the two `.loc` lookups:
the row of the last strictly positive difference, except that a row whose
pandas label is `0` is falsy and therefore dropped. -/
def markAnchor (rows : List Row) : Option Row :=
  match ((rows.zip (diffList (rows.map Row.metric))).filter fun p => posDelta p.2).getLast? with
  | none => none
  | some p => if p.1.idx == 0 then none else some p.1

/-- The main line trace for one country (`mode="lines"`, legend entry). -/
def lineTraceOf (rows : List Row) (c : String) : Trace :=
  { x := rows.map Row.date, y := rows.map Row.metric,
    mode := Mode.lines, name := some c, showlegend := true }

/-- The red dot (`mode="markers"`, `showlegend=False`), emitted only when
the truthiness-guarded last-increase lookup produced a row. -/
def markerList (rows : List Row) : List Trace :=
  match markAnchor rows with
  | none => []
  | some r => [{ x := [r.date], y := [r.metric], mode := Mode.markers,
                 name := none, showlegend := false }]

/-- The traces one loop iteration appends for `c`: the line, then the
marker when present. -/
def countryTraceList (df : List Row) (c : String) : List Trace :=
  lineTraceOf (countrySorted df c) c :: markerList (countrySorted df c)

/-- The callouts one loop iteration appends for `c`. -/
def countryAnnoList (df : List Row) (c : String) : List Anno :=
  match markAnchor (countrySorted df c) with
  | none => []
  | some r => [{ x := r.date, y := r.metric, text := "Reporting stopped for " ++ c }]

/-- One iteration of the `for country in selected_countries` loop, in
state-passing form: the filter copies the frame, the `delta` column lands
on the copy, and the shared frame is returned untouched. -/
def renderCountry (df : List Row) (c : String) : (List Trace × List Anno) × List Row :=
  ((countryTraceList df c, countryAnnoList df c), df)

/-- Loop step: append this country's traces and callouts, thread the frame. -/
def chartStep (acc : (List Trace × List Anno) × List Row) (c : String) : (List Trace × List Anno) × List Row :=
  let res := renderCountry acc.2 c
  ((acc.1.1 ++ res.1.1, acc.1.2 ++ res.1.2), res.2)

/-- Python falsiness of the callback argument: `None` or the empty list. -/
def selFalsy : Option (List String) → Bool
  | none => true
  | some l => l.isEmpty

/-- `update_chart(selected_countries)` in state-passing form over the
shared frame.  The figure component is `none` exactly where the real code
raises: a non-falsy selection with an empty frame makes
`df["date"].min()` return `NaT`, whose `strftime` raises. -/
def update_chart (df : List Row) (sel : Option (List String)) : Option Figure × List Row :=
  if selFalsy sel then (some Figure.empty, df)
  else
    match seriesMin (df.map Row.date), seriesMax (df.map Row.date) with
    | some lo, some hi =>
      let r := (sel.getD []).foldl chartStep (([], []), df)
      (some { traces := r.1.1, annotations := r.1.2, layout := styledLayout lo hi }, r.2)
    | _, _ => (none, df)

/-- Concatenation of per-country contributions, in selection order. -/
def concatAll (f : String → List α) : List String → List α
  | [] => []
  | c :: cs => f c ++ concatAll f cs

/-- Is this trace a line trace (`mode="lines"`)? -/
def isLineTrace (t : Trace) : Bool :=
  match t.mode with
  | Mode.lines => true
  | Mode.markers => false

/-- Is this trace a marker trace (`mode="markers"`)? -/
def isMarkerTrace (t : Trace) : Bool :=
  match t.mode with
  | Mode.lines => false
  | Mode.markers => true

/-- A frame whose single country "A" arrives date-unsorted in the CSV, so
the row labelled 0 is the one carrying the last positive difference. -/
def df1 : List Row := loadDF
  [ { date := ⟨2020,1,2⟩, location := "A", metric := some 5 },
    { date := ⟨2020,1,1⟩, location := "A", metric := some 3 } ]

/-- The specification's worked example: metric values 10,10,15,15,12 on
five consecutive dates. -/
def df10 : List Row := loadDF
  [ { date := ⟨2020,1,1⟩, location := "C", metric := some 10 },
    { date := ⟨2020,1,2⟩, location := "C", metric := some 10 },
    { date := ⟨2020,1,3⟩, location := "C", metric := some 15 },
    { date := ⟨2020,1,4⟩, location := "C", metric := some 15 },
    { date := ⟨2020,1,5⟩, location := "C", metric := some 12 } ]

/-- A two-row frame for the country "France". -/
def df2 : List Row := loadDF
  [ { date := ⟨2020,1,1⟩, location := "France", metric := some 3 },
    { date := ⟨2020,1,2⟩, location := "France", metric := some 5 } ]

/-- A frame holding two countries whose names are in reverse alphabetical
order of their CSV appearance. -/
def df3 : List Row := loadDF
  [ { date := ⟨2020,1,1⟩, location := "B", metric := some 1 },
    { date := ⟨2020,1,2⟩, location := "B", metric := some 2 },
    { date := ⟨2020,1,1⟩, location := "A", metric := some 7 },
    { date := ⟨2020,1,2⟩, location := "A", metric := some 9 } ]

/-- The figure the callback renders for `df1` and selection `["A"]`. -/
def figDf1 : Figure := ((update_chart df1 (some ["A"])).1).getD Figure.empty

/-- The figure the callback renders for `df10` and selection `["C"]`. -/
def figDf10 : Figure := ((update_chart df10 (some ["C"])).1).getD Figure.empty

/-- The figure the callback renders for `df2` and the unknown selection
`["Atlantis"]`. -/
def figAtlantis : Figure := ((update_chart df2 (some ["Atlantis"])).1).getD Figure.empty

/-- A filesystem state holding only a ledger that already names today
(2020-01-01); no cache file exists. -/
def fsLedgerOnly : FetchState :=
  { ledger := some "2020-01-01 - Downloaded\n", cache := [], requests := 0 }

/-- The pristine filesystem state: no ledger, no cache files. -/
def fsEmpty : FetchState := { ledger := none, cache := [], requests := 0 }

/-- The state after a successful download on 2020-01-01 from `fsEmpty`. -/
def fsDownloaded : FetchState :=
  { ledger := some "2020-01-01 - Downloaded\n",
    cache := [filepathFor "2020-01-01"], requests := 1 }

/-- A successful transport response. -/
def respOk : HttpResponse := { ok := true, content := "csv-body" }

theorem dateLe_iff (a b : Date) : dateLe a b = true ↔
    (a.year < b.year ∨ (a.year = b.year ∧
      (a.month < b.month ∨ (a.month = b.month ∧ a.day ≤ b.day)))) := by
  simp [dateLe]

theorem dateLe_refl (a : Date) : dateLe a a = true := by
  rw [dateLe_iff]; omega

theorem dateLe_trans {a b c : Date} (h1 : dateLe a b = true) (h2 : dateLe b c = true) :
    dateLe a c = true := by
  rw [dateLe_iff] at h1 h2 ⊢; omega

theorem dateLe_of_not {a b : Date} (h : ¬ dateLe a b = true) : dateLe b a = true := by
  rw [dateLe_iff] at h ⊢; omega

theorem dateMin_le_left (a b : Date) : dateLe (dateMin a b) a = true := by
  unfold dateMin; split
  · exact dateLe_refl a
  · exact dateLe_of_not (by assumption)

theorem dateMin_le_right (a b : Date) : dateLe (dateMin a b) b = true := by
  unfold dateMin; split
  · assumption
  · exact dateLe_refl b

theorem dateMin_eq_or (a b : Date) : dateMin a b = a ∨ dateMin a b = b := by
  unfold dateMin; split
  · exact Or.inl rfl
  · exact Or.inr rfl

theorem le_dateMax_left (a b : Date) : dateLe a (dateMax a b) = true := by
  unfold dateMax; split
  · assumption
  · exact dateLe_refl a

theorem le_dateMax_right (a b : Date) : dateLe b (dateMax a b) = true := by
  unfold dateMax; split
  · exact dateLe_refl b
  · exact dateLe_of_not (by assumption)

theorem dateMax_eq_or (a b : Date) : dateMax a b = a ∨ dateMax a b = b := by
  unfold dateMax; split
  · exact Or.inr rfl
  · exact Or.inl rfl

theorem foldl_dateMin_le_init : ∀ (ds : List Date) (a : Date),
    dateLe (ds.foldl dateMin a) a = true
  | [], a => dateLe_refl a
  | d :: t, a =>
    dateLe_trans (foldl_dateMin_le_init t (dateMin a d)) (dateMin_le_left a d)

theorem foldl_dateMin_le_mem : ∀ (ds : List Date) (a e : Date), e ∈ ds →
    dateLe (ds.foldl dateMin a) e = true := by
  intro ds
  induction ds with
  | nil => intro a e he; cases he
  | cons d t ih =>
    intro a e he
    rcases List.mem_cons.mp he with h | h
    · subst h
      exact dateLe_trans (foldl_dateMin_le_init t (dateMin a e)) (dateMin_le_right a e)
    · exact ih (dateMin a d) e h

theorem foldl_dateMin_mem : ∀ (ds : List Date) (a : Date),
    ds.foldl dateMin a = a ∨ ds.foldl dateMin a ∈ ds := by
  intro ds
  induction ds with
  | nil => intro a; exact Or.inl rfl
  | cons d t ih =>
    intro a
    rcases ih (dateMin a d) with h | h
    · rcases dateMin_eq_or a d with h2 | h2
      · exact Or.inl (h.trans h2)
      · exact Or.inr (List.mem_cons.mpr (Or.inl (h.trans h2)))
    · exact Or.inr (List.mem_cons.mpr (Or.inr h))

theorem foldl_dateMax_ge_init : ∀ (ds : List Date) (a : Date),
    dateLe a (ds.foldl dateMax a) = true
  | [], a => dateLe_refl a
  | d :: t, a =>
    dateLe_trans (le_dateMax_left a d) (foldl_dateMax_ge_init t (dateMax a d))

theorem foldl_dateMax_ge_mem : ∀ (ds : List Date) (a e : Date), e ∈ ds →
    dateLe e (ds.foldl dateMax a) = true := by
  intro ds
  induction ds with
  | nil => intro a e he; cases he
  | cons d t ih =>
    intro a e he
    rcases List.mem_cons.mp he with h | h
    · subst h
      exact dateLe_trans (le_dateMax_right a e) (foldl_dateMax_ge_init t (dateMax a e))
    · exact ih (dateMax a d) e h

theorem foldl_dateMax_mem : ∀ (ds : List Date) (a : Date),
    ds.foldl dateMax a = a ∨ ds.foldl dateMax a ∈ ds := by
  intro ds
  induction ds with
  | nil => intro a; exact Or.inl rfl
  | cons d t ih =>
    intro a
    rcases ih (dateMax a d) with h | h
    · rcases dateMax_eq_or a d with h2 | h2
      · exact Or.inl (h.trans h2)
      · exact Or.inr (List.mem_cons.mpr (Or.inl (h.trans h2)))
    · exact Or.inr (List.mem_cons.mpr (Or.inr h))

theorem foldl_chartStep_eq : ∀ (sel : List String) (df : List Row) (ts : List Trace) (ans : List Anno),
    sel.foldl chartStep ((ts, ans), df) =
      ((ts ++ concatAll (fun c => countryTraceList df c) sel,
        ans ++ concatAll (fun c => countryAnnoList df c) sel), df) := by
  intro sel
  induction sel with
  | nil => intro df ts ans; simp [concatAll]
  | cons c cs ih =>
    intro df ts ans
    have step : chartStep ((ts, ans), df) c =
        ((ts ++ countryTraceList df c, ans ++ countryAnnoList df c), df) := rfl
    calc (c :: cs).foldl chartStep ((ts, ans), df)
        = cs.foldl chartStep ((ts ++ countryTraceList df c, ans ++ countryAnnoList df c), df) := by
          rw [List.foldl_cons, step]
      _ = ((ts ++ concatAll (fun x => countryTraceList df x) (c :: cs),
            ans ++ concatAll (fun x => countryAnnoList df x) (c :: cs)), df) := by
          rw [ih]; simp [concatAll]

theorem seriesMin_of_ne_nil {df : List Row} (h : df ≠ []) :
    ∃ lo, seriesMin (df.map Row.date) = some lo := by
  cases df with
  | nil => exact absurd rfl h
  | cons r rs => exact ⟨_, rfl⟩

theorem seriesMax_of_ne_nil {df : List Row} (h : df ≠ []) :
    ∃ hi, seriesMax (df.map Row.date) = some hi := by
  cases df with
  | nil => exact absurd rfl h
  | cons r rs => exact ⟨_, rfl⟩

theorem update_chart_cons (df : List Row) (c : String) (cs : List String) (lo hi : Date)
    (hmin : seriesMin (df.map Row.date) = some lo)
    (hmax : seriesMax (df.map Row.date) = some hi) :
    update_chart df (some (c :: cs)) =
      (some { traces := concatAll (fun x => countryTraceList df x) (c :: cs),
              annotations := concatAll (fun x => countryAnnoList df x) (c :: cs),
              layout := styledLayout lo hi }, df) := by
  unfold update_chart
  have hfalsy : selFalsy (some (c :: cs)) = false := rfl
  rw [hfalsy]
  have hstep : chartStep (([], []), df) c =
      ((countryTraceList df c, countryAnnoList df c), df) := by
    simp [chartStep, renderCountry]
  simp [hmin, hmax, hstep, foldl_chartStep_eq, concatAll]

theorem update_chart_parts (df : List Row) (sel : List String) (h : df ≠ []) :
    ∃ fig, (update_chart df (some sel)).1 = some fig ∧
      fig.traces = concatAll (fun x => countryTraceList df x) sel ∧
      fig.annotations = concatAll (fun x => countryAnnoList df x) sel := by
  cases sel with
  | nil => exact ⟨Figure.empty, rfl, rfl, rfl⟩
  | cons c cs =>
    obtain ⟨lo, hmin⟩ := seriesMin_of_ne_nil h
    obtain ⟨hi, hmax⟩ := seriesMax_of_ne_nil h
    exact ⟨_, by rw [update_chart_cons df c cs lo hi hmin hmax], rfl, rfl⟩

theorem prefList_self_append : ∀ (n b : List Char), prefList n (n ++ b) = true := by
  intro n
  induction n with
  | nil => intro b; rfl
  | cons a as ih => intro b; simp [prefList, ih b]

theorem subList_cons_of_subList {n t : List Char} (x : Char) (h : subList n t = true) :
    subList n (x :: t) = true := by
  unfold subList
  rw [h, Bool.or_true]

theorem subList_self_append : ∀ (n b : List Char), subList n (n ++ b) = true := by
  intro n b
  cases n with
  | nil =>
    cases b with
    | nil => rfl
    | cons h t => simp [subList, prefList]
  | cons a as =>
    show subList (a :: as) (a :: (as ++ b)) = true
    unfold subList
    rw [← List.cons_append, prefList_self_append (a :: as) b, Bool.true_or]

theorem subList_append_left : ∀ (a n rest : List Char), subList n rest = true →
    subList n (a ++ rest) = true := by
  intro a
  induction a with
  | nil => intro n rest h; exact h
  | cons x xs ih => intro n rest h; exact subList_cons_of_subList x (ih n rest h)

theorem strContains_append_today (a today b : String) :
    strContains (a ++ today ++ b) today = true := by
  unfold strContains
  show subList today.data ((a ++ today ++ b)).data = true
  rw [String.data_append, String.data_append, List.append_assoc]
  exact subList_append_left a.data today.data (today.data ++ b.data)
    (subList_self_append today.data b.data)

theorem countrySorted_unknown (df : List Row) (c : String)
    (h : ∀ r ∈ df, r.location ≠ c) : countrySorted df c = [] := by
  unfold countrySorted
  have hf : df.filter (fun r => r.location == c) = [] := by
    rw [List.filter_eq_nil_iff]
    intro r hr
    simp only [beq_iff_eq]
    exact h r hr
  rw [hf]
  rfl

theorem filter_isLine_countryTraceList (df : List Row) (c : String) :
    (countryTraceList df c).filter isLineTrace = [lineTraceOf (countrySorted df c) c] := by
  unfold countryTraceList
  rw [List.filter_cons]
  have hline : isLineTrace (lineTraceOf (countrySorted df c) c) = true := rfl
  rw [hline]
  simp only [if_true]
  cases h : markAnchor (countrySorted df c) with
  | none => simp [markerList, h]
  | some r => simp [markerList, h, isLineTrace]

theorem lines_names (df : List Row) : ∀ (sel : List String),
    ((concatAll (fun c => countryTraceList df c) sel).filter isLineTrace).map Trace.name
      = sel.map some := by
  intro sel
  induction sel with
  | nil => rfl
  | cons c cs ih =>
    show ((countryTraceList df c ++ concatAll (fun x => countryTraceList df x) cs).filter
        isLineTrace).map Trace.name = some c :: cs.map some
    rw [List.filter_append, List.map_append, filter_isLine_countryTraceList, ih]
    rfl

theorem fetchAndRecord_ok {today : String} {resp : HttpResponse} {s s' : FetchState}
    (h : fetchAndRecord today resp s = Except.ok s') :
    s' = { ledger := some ((s.ledger.getD "") ++ today ++ " - Downloaded\n"),
           cache := writeFile (filepathFor today) s.cache,
           requests := s.requests + 1 } := by
  unfold fetchAndRecord at h
  split at h
  · exact (Except.ok.injEq _ _ ▸ h).symm
  · cases h

theorem download_after_fetch {today : String} {resp : HttpResponse} {s s' : FetchState}
    (h : fetchAndRecord today resp s = Except.ok s') (resp2 : HttpResponse) :
    download_if_needed today resp2 s' = Except.ok s' := by
  rw [fetchAndRecord_ok h]
  show (if strContains ((s.ledger.getD "") ++ today ++ " - Downloaded\n") today = true
        then Except.ok _ else _) = _
  rw [if_pos (strContains_append_today _ today _)]

theorem mem_writeFile_self (p : String) (c : List String) : p ∈ writeFile p c := by
  unfold writeFile
  split
  · assumption
  · exact List.mem_cons_self p c

/-- C2: once the ledger file exists and its contents contain today's date
label as a substring, `download_if_needed` is a complete no-op (no GET, no
cache write, no ledger append); and after any successful call, a second
same-day call is a no-op, so two calls perform at most one request. -/
theorem C2_same_day_noop (today : String) (resp resp2 : HttpResponse) (s s' : FetchState)
    (h : download_if_needed today resp s = Except.ok s') :
    s'.requests ≤ s.requests + 1
  ∧ download_if_needed today resp2 s' = Except.ok s'
  ∧ ∀ txt, s.ledger = some txt → strContains txt today = true → s' = s := by
  unfold download_if_needed at h
  cases hl : s.ledger with
  | none =>
    have h' : fetchAndRecord today resp s = Except.ok s' := by rw [hl] at h; exact h
    have hs' := fetchAndRecord_ok h'
    refine ⟨by rw [hs'], download_after_fetch h' resp2, ?_⟩
    intro txt htxt _
    exact absurd htxt (by simp)
  | some txt =>
    have h' : (if strContains txt today = true then Except.ok s
        else fetchAndRecord today resp s) = Except.ok s' := by rw [hl] at h; exact h
    by_cases hc : strContains txt today = true
    · rw [if_pos hc] at h'
      have hss : s = s' := by injection h'
      subst hss
      refine ⟨Nat.le_succ _, ?_, fun _ _ _ => rfl⟩
      unfold download_if_needed
      rw [hl]
      show (if strContains txt today = true then Except.ok s
          else fetchAndRecord today resp2 s) = Except.ok s
      rw [if_pos hc]
    · rw [if_neg hc] at h'
      have hs' := fetchAndRecord_ok h'
      refine ⟨by rw [hs'], download_after_fetch h' resp2, ?_⟩
      intro txt2 htxt2 hc2
      have hteq : txt = txt2 := by injection htxt2
      subst hteq
      exact absurd hc2 hc

/-- C2 witness: with a ledger already naming 2020-01-01 and no cache file,
the call returns the state unchanged. -/
theorem C2_same_day_noop_witness :
    fsLedgerOnly.requests ≤ fsLedgerOnly.requests + 1
  ∧ download_if_needed "2020-01-01" respOk fsLedgerOnly = Except.ok fsLedgerOnly
  ∧ ∀ txt, fsLedgerOnly.ledger = some txt → strContains txt "2020-01-01" = true →
      fsLedgerOnly = fsLedgerOnly :=
  C2_same_day_noop "2020-01-01" respOk respOk fsLedgerOnly fsLedgerOnly (by rfl)

/-- C8 (amended): when the Fetcher completes without error, either the
download branch ran and today's cache file exists afterwards, or the
ledger fast path was taken, the state is untouched, and the cache file
exists only if it already did — the fast path never checks the file. -/
theorem C8_cache_file_amended (today : String) (resp : HttpResponse) (s s' : FetchState)
    (h : download_if_needed today resp s = Except.ok s') :
    filepathFor today ∈ s'.cache ∨ (s' = s ∧ filepathFor today ∉ s.cache) := by
  unfold download_if_needed at h
  cases hl : s.ledger with
  | none =>
    have h' : fetchAndRecord today resp s = Except.ok s' := by rw [hl] at h; exact h
    rw [fetchAndRecord_ok h']
    exact Or.inl (mem_writeFile_self _ _)
  | some txt =>
    have h' : (if strContains txt today = true then Except.ok s
        else fetchAndRecord today resp s) = Except.ok s' := by rw [hl] at h; exact h
    by_cases hc : strContains txt today = true
    · rw [if_pos hc] at h'
      have hss : s = s' := by injection h'
      subst hss
      by_cases hm : filepathFor today ∈ s.cache
      · exact Or.inl hm
      · exact Or.inr ⟨rfl, hm⟩
    · rw [if_neg hc] at h'
      rw [fetchAndRecord_ok h']
      exact Or.inl (mem_writeFile_self _ _)

/-- C8 witness: from a pristine state a successful call downloads and the
cache file for today exists afterwards. -/
theorem C8_cache_file_amended_witness :
    filepathFor "2020-01-01" ∈ fsDownloaded.cache
  ∨ (fsDownloaded = fsEmpty ∧ filepathFor "2020-01-01" ∉ fsEmpty.cache) :=
  C8_cache_file_amended "2020-01-01" respOk fsEmpty fsDownloaded (by rfl)

/-- C8 counterexample: with a ledger naming today but no cache file at all,
the Fetcher completes without error on the fast path, yet the cache file at
the expected path for today does not exist — refuting the claim that
error-free completion guarantees the file's existence. -/
theorem C8_fastpath_counterexample :
    download_if_needed "2020-01-01" respOk fsLedgerOnly = Except.ok fsLedgerOnly
  ∧ filepathFor "2020-01-01" ∉ fsLedgerOnly.cache :=
  ⟨by rfl, by decide⟩

/-- C3: for every frame, an empty selection renders the empty chart —
`go.Figure()` with zero traces, zero callouts and the default layout — and
this is a normal `some` result, not an error. -/
theorem C3_empty_selection_empty_chart (df : List Row) :
    (update_chart df (some [])).1 = some Figure.empty
  ∧ Figure.empty.traces = []
  ∧ Figure.empty.annotations = []
  ∧ Figure.empty.layout = defaultLayout :=
  ⟨rfl, rfl, rfl, rfl⟩

/-- C10: a missing selection (`None` from the cleared dropdown) is handled
exactly like the empty selection: the callback returns the empty chart
rather than raising. -/
theorem C10_none_selection_like_empty (df : List Row) :
    update_chart df none = update_chart df (some [])
  ∧ (update_chart df none).1 = some Figure.empty :=
  ⟨rfl, rfl⟩

/-- C9: the callback leaves the shared loaded frame unchanged for every
frame and selection — the `delta` column is attached to the per-country
working copy only. -/
theorem C9_dataset_unchanged (df : List Row) (sel : Option (List String)) :
    (update_chart df sel).2 = df := by
  unfold update_chart
  by_cases hf : selFalsy sel = true
  · rw [if_pos hf]
  · rw [if_neg hf]
    cases hmin : seriesMin (df.map Row.date) with
    | none => rfl
    | some lo =>
      cases hmax : seriesMax (df.map Row.date) with
      | none => rfl
      | some hi =>
        show (List.foldl chartStep (([], []), df) (sel.getD [])).2 = df
        rw [foldl_chartStep_eq]

/-- C4: after loading, no retained row has a missing metric — a scan of the
metric column of `loadDF` finds zero missing entries, and every member row
has `isSome` metric (the frame is a pure value, never mutated later). -/
theorem C4_no_missing_metric (raws : List RawRow) :
    ((loadDF raws).filter fun r => r.metric.isNone).length = 0
  ∧ ∀ r ∈ loadDF raws, r.metric.isSome = true := by
  have hall : ∀ r ∈ loadDF raws, r.metric.isSome = true := by
    intro r hr
    unfold loadDF at hr
    exact (List.mem_filter.mp hr).2
  refine ⟨?_, hall⟩
  rw [List.length_eq_zero, List.filter_eq_nil_iff]
  intro r hr
  have h2 := hall r hr
  cases hm : r.metric with
  | none => rw [hm] at h2; simp at h2
  | some v => simp [hm]

/-- C4 witness: a concrete one-row load retains the row with its metric. -/
theorem C4_no_missing_metric_witness :
    (⟨0, ⟨2020,1,1⟩, "A", some 3⟩ : Row) ∈ loadDF [⟨⟨2020,1,1⟩, "A", some 3⟩]
  ∧ Option.isSome (Row.metric ⟨0, ⟨2020,1,1⟩, "A", some 3⟩) = true :=
  ⟨by decide, (C4_no_missing_metric [⟨⟨2020,1,1⟩, "A", some 3⟩]).2 _ (by decide)⟩

/-- C5: for every non-empty frame, `seriesMin`/`seriesMax` over the whole
frame are a member lower bound and a member upper bound of the date column,
and for every non-empty selection the rendered title embeds exactly these
two dates — independent of which countries are selected. -/
theorem C5_title_global_range (df : List Row) (hdf : df ≠ []) :
    ∃ lo hi, seriesMin (df.map Row.date) = some lo
  ∧ seriesMax (df.map Row.date) = some hi
  ∧ lo ∈ df.map Row.date ∧ hi ∈ df.map Row.date
  ∧ (∀ d ∈ df.map Row.date, dateLe lo d = true ∧ dateLe d hi = true)
  ∧ ∀ sel : List String, sel ≠ [] →
      ∃ fig, (update_chart df (some sel)).1 = some fig
        ∧ fig.layout.title = some (titleText lo hi) := by
  cases df with
  | nil => exact absurd rfl hdf
  | cons r rs =>
    refine ⟨(rs.map Row.date).foldl dateMin r.date, (rs.map Row.date).foldl dateMax r.date,
      rfl, rfl, ?_, ?_, ?_, ?_⟩
    · rcases foldl_dateMin_mem (rs.map Row.date) r.date with h | h
      · rw [List.map_cons, h]; exact List.mem_cons_self _ _
      · rw [List.map_cons]; exact List.mem_cons_of_mem _ h
    · rcases foldl_dateMax_mem (rs.map Row.date) r.date with h | h
      · rw [List.map_cons, h]; exact List.mem_cons_self _ _
      · rw [List.map_cons]; exact List.mem_cons_of_mem _ h
    · intro d hd
      rw [List.map_cons] at hd
      rcases List.mem_cons.mp hd with h | h
      · subst h
        exact ⟨foldl_dateMin_le_init _ _, foldl_dateMax_ge_init _ _⟩
      · exact ⟨foldl_dateMin_le_mem _ _ _ h, foldl_dateMax_ge_mem _ _ _ h⟩
    · intro sel hsel
      cases sel with
      | nil => exact absurd rfl hsel
      | cons c cs =>
        exact ⟨{ traces := concatAll (fun x => countryTraceList (r :: rs) x) (c :: cs),
                 annotations := concatAll (fun x => countryAnnoList (r :: rs) x) (c :: cs),
                 layout := styledLayout ((rs.map Row.date).foldl dateMin r.date)
                   ((rs.map Row.date).foldl dateMax r.date) },
               by rw [update_chart_cons (r :: rs) c cs _ _ rfl rfl], rfl⟩

/-- C5 witness: on the concrete two-row France frame, the title range is
Jan 01, 2020 to Jan 02, 2020 for any non-empty selection. -/
theorem C5_title_global_range_witness :
    df2 ≠ []
  ∧ ∃ lo hi, seriesMin (df2.map Row.date) = some lo
  ∧ seriesMax (df2.map Row.date) = some hi
  ∧ lo ∈ df2.map Row.date ∧ hi ∈ df2.map Row.date
  ∧ (∀ d ∈ df2.map Row.date, dateLe lo d = true ∧ dateLe d hi = true)
  ∧ ∀ sel : List String, sel ≠ [] →
      ∃ fig, (update_chart df2 (some sel)).1 = some fig
        ∧ fig.layout.title = some (titleText lo hi) :=
  ⟨by decide, C5_title_global_range df2 (by decide)⟩

/-- C6: for every non-empty frame and every selection list, the names of
the line traces of the rendered figure are exactly the selected names in
selection order. -/
theorem C6_trace_order_selection (df : List Row) (sel : List String) (hdf : df ≠ []) :
    ∃ fig, (update_chart df (some sel)).1 = some fig
      ∧ (fig.traces.filter isLineTrace).map Trace.name = sel.map some := by
  obtain ⟨fig, hfig, htr, _⟩ := update_chart_parts df sel hdf
  exact ⟨fig, hfig, by rw [htr]; exact lines_names df sel⟩

/-- C6 witness: selecting `["B", "A"]` on the two-country frame yields line
traces named B then A, not alphabetical order. -/
theorem C6_trace_order_selection_witness :
    df3 ≠ []
  ∧ ∃ fig, (update_chart df3 (some ["B", "A"])).1 = some fig
      ∧ (fig.traces.filter isLineTrace).map Trace.name = ["B", "A"].map some :=
  ⟨by decide, C6_trace_order_selection df3 ["B", "A"] (by decide)⟩

/-- C7 counterexample: selecting only the unknown name "Atlantis" on the
France frame produces a figure with exactly one trace — an empty line
trace named "Atlantis" — refuting the claim that an unknown name
contributes no trace at all. -/
theorem C7_unknown_counterexample :
    (update_chart df2 (some ["Atlantis"])).1 = some figAtlantis
  ∧ figAtlantis.traces.length = 1
  ∧ figAtlantis.traces.map Trace.name = [some "Atlantis"] := by decide

/-- C7 (amended): an unknown country name never makes the render fail (for
a non-empty frame): the figure is produced, its traces and callouts are
the per-country contributions in selection order, and the unknown name
contributes exactly one line trace with no data points, no marker and no
callout. -/
theorem C7_unknown_country_amended (df : List Row) (sel : List String) (c : String)
    (hdf : df ≠ []) (hunk : ∀ r ∈ df, r.location ≠ c) :
    ∃ fig, (update_chart df (some sel)).1 = some fig
      ∧ fig.traces = concatAll (fun x => countryTraceList df x) sel
      ∧ fig.annotations = concatAll (fun x => countryAnnoList df x) sel
      ∧ countryTraceList df c =
          [{ x := [], y := [], mode := Mode.lines, name := some c, showlegend := true }]
      ∧ countryAnnoList df c = [] := by
  obtain ⟨fig, hfig, htr, han⟩ := update_chart_parts df sel hdf
  have hempty := countrySorted_unknown df c hunk
  refine ⟨fig, hfig, htr, han, ?_, ?_⟩
  · unfold countryTraceList
    rw [hempty]
    rfl
  · unfold countryAnnoList
    rw [hempty]
    rfl

/-- C7 witness: the amended statement at the concrete France frame with the
unknown selection "Atlantis". -/
theorem C7_unknown_country_amended_witness :
    df2 ≠ []
  ∧ (∀ r ∈ df2, r.location ≠ "Atlantis")
  ∧ ∃ fig, (update_chart df2 (some ["Atlantis"])).1 = some fig
      ∧ fig.traces = concatAll (fun x => countryTraceList df2 x) ["Atlantis"]
      ∧ fig.annotations = concatAll (fun x => countryAnnoList df2 x) ["Atlantis"]
      ∧ countryTraceList df2 "Atlantis" =
          [{ x := [], y := [], mode := Mode.lines, name := some "Atlantis", showlegend := true }]
      ∧ countryAnnoList df2 "Atlantis" = [] :=
  ⟨by decide, by decide,
    C7_unknown_country_amended df2 ["Atlantis"] "Atlantis" (by decide) (by decide)⟩

/-- C1: on the specification's worked example (metric 10,10,15,15,12 on
five consecutive dates) the marker and callout anchor at the third date
with value 15, as the claim requires; but a strictly positive consecutive
difference does not always produce them: in `df1` the last positive
difference sits on the row with pandas label 0, `if last_increase_idx:`
treats that label as falsy, and the code emits neither marker nor callout,
refuting the claimed equivalence. -/
theorem C1_truthiness_skips_label_zero :
    (update_chart df10 (some ["C"])).1 = some figDf10
  ∧ figDf10.annotations =
      [{ x := ⟨2020,1,3⟩, y := some 15, text := "Reporting stopped for C" }]
  ∧ figDf10.traces.filter isMarkerTrace =
      [{ x := [⟨2020,1,3⟩], y := [some 15], mode := Mode.markers,
         name := none, showlegend := false }]
  ∧ (update_chart df1 (some ["A"])).1 = some figDf1
  ∧ (diffList ((countrySorted df1 "A").map Row.metric)).any posDelta = true
  ∧ figDf1.annotations = []
  ∧ figDf1.traces.filter isMarkerTrace = [] := by decide
